/-
  Verification development for the ocean_blue repository.

  The numeric model: JavaScript numbers are embedded as rationals (ℚ) on all
  paths where the code keeps values finite; `Math.round` is `⌊x + 1/2⌋`
  (round half toward +∞, as in JS for finite arguments), `Math.min`/`Math.max`
  are `min`/`max`.  For the divide-by-zero analysis of the /api/fisheries
  handler a second model `JSNum` carries the IEEE special values NaN and ±∞,
  since rational division by zero (which yields 0) would silently hide the
  behaviour under scrutiny there.
-/
import Mathlib

/-- JavaScript `Math.round` for finite arguments: round half toward +∞. -/
def jround (q : ℚ) : ℤ := ⌊q + 1/2⌋

/-- `Math.max(0, Math.min(100, z))` on integers, the clamp used by the
/api/fisheries handler after rounding. -/
def clampI (z : ℤ) : ℤ := max 0 (min 100 z)

/-- Clamp on rationals, used to state the spec's `round(clamp(x, 0, 100))`. -/
def clampQ (x : ℚ) : ℚ := max 0 (min 100 x)

/- ──────────────────────────────────────────────────────────────────────────
   src/src/utils/fisheries.js — the fisheries logic engine
   ────────────────────────────────────────────────────────────────────────── -/

/-- A species record from species.json as consumed by fisheries.js:
`temp_range` is the two-element array `[low, high]`, `season_months` the list
of legal months (1..12), `legal_status` one of "Open"/"Restricted"/"Protected". -/
structure Species where
  id : ℤ
  name : String
  temp_range_low : ℚ
  temp_range_high : ℚ
  max_wave_height : ℚ
  season_months : List ℕ
  legal_status : String
  stock_health : ℚ
  trend : String
deriving DecidableEq, Repr

/-- The current-conditions snapshot `{sea_surface_temp, wave_height}`. -/
structure CurrentData where
  sea_surface_temp : ℚ
  wave_height : ℚ
deriving DecidableEq, Repr

/-- The `{suitable, reason}` result of `evaluateSuitability`. -/
structure SuitResult where
  suitable : Bool
  reason : String
deriving DecidableEq, Repr

/-- `evaluateSuitability(species, currentData)` from fisheries.js.  The code
reads `const currentMonth = new Date().getMonth() + 1`; that wall-clock value
is made an explicit argument `currentMonth` here, so the embedding is the
function of the code's three true inputs. -/
def evaluateSuitability (species : Species) (currentData : CurrentData)
    (currentMonth : ℕ) : SuitResult :=
  let temp := currentData.sea_surface_temp
  let wave := currentData.wave_height
  let lo := species.temp_range_low
  let hi := species.temp_range_high
  if species.legal_status = "Protected" then
    { suitable := false,
      reason := "Species is legally protected. Conservation active." }
  else if ¬ (currentMonth ∈ species.season_months) then
    { suitable := false, reason := "Outside of legal fishing season." }
  else if temp < lo ∨ temp > hi then
    { suitable := false,
      reason := "Water temp (" ++ toString temp ++
        "°C) outside optimal range (" ++ toString lo ++ "-" ++
        toString hi ++ "°C)." }
  else if wave > species.max_wave_height then
    { suitable := false,
      reason := "Wave height (" ++ toString wave ++
        "m) exceeds safety limit (" ++ toString species.max_wave_height ++
        "m)." }
  else
    { suitable := true, reason := "Conditions optimal for sustainable catch." }

/-- `calculateSustainabilityScore(speciesList, currentData)` from
fisheries.js: 40% average stock health, 40% temperature suitability
percentage, 20% wave-safety percentage, rounded; 0 on the empty list. -/
def calculateSustainabilityScore (speciesList : List Species)
    (currentData : CurrentData) : ℤ :=
  if speciesList.length = 0 then 0
  else
    let n : ℚ := speciesList.length
    let avgStockHealth := (speciesList.map (·.stock_health)).sum / n
    let suitableTempCount := (speciesList.filter (fun s =>
      decide (currentData.sea_surface_temp ≥ s.temp_range_low) &&
      decide (currentData.sea_surface_temp ≤ s.temp_range_high))).length
    let tempScore := ((suitableTempCount : ℚ) / n) * 100
    let safeWaveCount := (speciesList.filter (fun s =>
      decide (currentData.wave_height ≤ s.max_wave_height))).length
    let waveScore := ((safeWaveCount : ℚ) / n) * 100
    jround (avgStockHealth * 0.4 + tempScore * 0.4 + waveScore * 0.2)

/-- An alert `{type, message}` as produced by `generateFisheriesAlerts`. -/
structure Alert where
  type : String
  message : String
deriving DecidableEq, Repr

/-- The two per-species alert pushes inside the `speciesList.forEach` body of
`generateFisheriesAlerts`: a warning when `stock_health < 50`, then an info
alert when `legal_status === 'Protected'`. -/
def speciesAlerts (s : Species) : List Alert :=
  (if s.stock_health < 50 then
    [{ type := "warning",
       message := "Biological Alert: " ++ s.name ++
         " stocks are under pressure (" ++ toString s.stock_health ++ "%)." }]
   else []) ++
  (if s.legal_status = "Protected" then
    [{ type := "info",
       message := "Conservation: " ++ s.name ++
         " is strictly protected this area." }]
   else [])

/-- `generateFisheriesAlerts(speciesList, sustainabilityScore, currentData)`
from fisheries.js, modelling the imperative `alerts.push` accumulation: the
two global rules append first, then the `forEach` loop appends the
per-species alerts in list order via a left fold over the accumulator. -/
def generateFisheriesAlerts (speciesList : List Species)
    (sustainabilityScore : ℤ) (currentData : CurrentData) : List Alert :=
  let alerts : List Alert :=
    if currentData.wave_height > 3 then
      [{ type := "danger",
         message := "Rough Sea Warning: High waves pose safety risk for small vessels." }]
    else []
  let alerts :=
    alerts ++
      (if sustainabilityScore < 60 then
        [{ type := "warning",
           message := "Low Sustainability Index: Recommendation to reduce fishing effort." }]
       else [])
  speciesList.foldl (fun acc s => acc ++ speciesAlerts s) alerts

/- ──────────────────────────────────────────────────────────────────────────
   src/api/buoy-historical.js — the /api/fisheries handler (risk framework)
   ────────────────────────────────────────────────────────────────────────── -/

/-- A stock record as parsed from fisheries_indian_region_2023.csv by the
/api/fisheries handler (`protected` is a Lean keyword, hence `protectedFlag`). -/
structure StockRecord where
  id : ℤ
  region : String
  species : String
  stock_health_percent : ℚ
  trend : String
  msy_tonnes : ℚ
  current_catch_tonnes : ℚ
  protectedFlag : Bool
deriving DecidableEq, Repr

/-- The region filter applied while streaming CSV rows:
`if (!regionQuery || record.region.toLowerCase() === regionQuery) results.push(record)`. -/
def regionFilter (regionQuery : Option String) (rows : List StockRecord) :
    List StockRecord :=
  rows.filter (fun r =>
    match regionQuery with
    | none => true
    | some q => r.region.toLower == q)

/-- `avgStockHealth` of the handler: mean of `stock_health_percent`. -/
def avgStockHealth (results : List StockRecord) : ℚ :=
  (results.map (·.stock_health_percent)).sum / (results.length : ℚ)

/-- `avgMSY` of the handler: mean of `current_catch_tonnes / msy_tonnes * 100`
(rational model; `msy_tonnes = 0` behaviour is analysed separately on `JSNum`). -/
def avgMSY (results : List StockRecord) : ℚ :=
  (results.map (fun s => s.current_catch_tonnes / s.msy_tonnes * 100)).sum /
    (results.length : ℚ)

/-- `msyPressureScore = Math.min(avgMSY, 120)`. -/
def msyPressureScore (results : List StockRecord) : ℚ :=
  min (avgMSY results) 120

/-- `decliningCount`: records whose trend is "Declining" or "Critical". -/
def decliningCount (results : List StockRecord) : ℕ :=
  (results.filter (fun s => s.trend == "Declining" || s.trend == "Critical")).length

/-- `decliningPercent = (decliningCount / results.length) * 100`. -/
def decliningPercent (results : List StockRecord) : ℚ :=
  ((decliningCount results : ℚ) / (results.length : ℚ)) * 100

/-- The handler's climate-stress step function of sea-surface temperature:
`let climateScore = 20; if (sst > 30) 90; else if (sst > 28) 60; else if (sst > 26) 40`. -/
def climateScore (sst : ℚ) : ℚ :=
  if sst > 30 then 90
  else if sst > 28 then 60
  else if sst > 26 then 40
  else 20

/-- The raw (pre-round, pre-clamp) `sustainabilityIndex` of the handler. -/
def sustainabilityIndex (results : List StockRecord) (sst : ℚ) : ℚ :=
  avgStockHealth results * 0.5 + (100 - msyPressureScore results) * 0.25 +
    (100 - decliningPercent results) * 0.15 + (100 - climateScore sst) * 0.10

/-- `finalIndex = Math.max(0, Math.min(100, Math.round(sustainabilityIndex)))`. -/
def finalIndex (results : List StockRecord) (sst : ℚ) : ℤ :=
  clampI (jround (sustainabilityIndex results sst))

/-- The raw (pre-round, pre-clamp) `collapseRisk` of the handler. -/
def collapseRisk (results : List StockRecord) (sst : ℚ) : ℚ :=
  msyPressureScore results * 0.35 + decliningPercent results * 0.25 +
    (100 - avgStockHealth results) * 0.25 + climateScore sst * 0.15

/-- `finalCollapseRisk = Math.max(0, Math.min(100, Math.round(collapseRisk)))`. -/
def finalCollapseRisk (results : List StockRecord) (sst : ℚ) : ℤ :=
  clampI (jround (collapseRisk results sst))

/-- The scoring fields of the JSON body built by the handler when at least one
record matched (levels, projection and stats included). -/
structure RiskResult where
  sustainability_index : ℤ
  sustainability_level : String
  collapse_risk_score : ℤ
  collapse_risk_level : String
  climate_stress_score : ℚ
  projection_index_6_month : ℤ
  projection_change : ℤ
  stats_count : ℕ
  stats_avg_stock_health : ℤ
  stats_msy_utilization : ℤ
  stats_declining_percent : ℤ
  stats_critical_species_count : ℕ
deriving DecidableEq, Repr

/-- The handler's response: either the `{count: 0}` body (every scoring field
absent — the `noData` constructor carries nothing) or the full scored body. -/
inductive ScoreResponse where
  | noData : ScoreResponse
  | scored : RiskResult → ScoreResponse
deriving DecidableEq, Repr

/-- The `end`-event callback of the /api/fisheries handler: on an empty
filtered record list it responds `{count: 0}`; otherwise it computes the full
risk bundle (rational model of lines 164-209 of the server file). -/
def scoreRisk (results : List StockRecord) (sst : ℚ) : ScoreResponse :=
  if results.length = 0 then ScoreResponse.noData
  else
    let fi := finalIndex results sst
    let fr := finalCollapseRisk results sst
    let projectedIndex : ℚ := (fi : ℚ) - (fr : ℚ) * 0.05
    ScoreResponse.scored
      { sustainability_index := fi
        sustainability_level :=
          if fi ≥ 70 then "Sustainable"
          else if fi < 50 then "Critical"
          else "Caution"
        collapse_risk_score := fr
        collapse_risk_level :=
          if fr < 30 then "Low"
          else if fr > 60 then "High"
          else "Moderate"
        climate_stress_score := climateScore sst
        projection_index_6_month := max 0 (jround projectedIndex)
        projection_change := jround (projectedIndex - (fi : ℚ))
        stats_count := results.length
        stats_avg_stock_health := jround (avgStockHealth results)
        stats_msy_utilization := jround (avgMSY results)
        stats_declining_percent := jround (decliningPercent results)
        stats_critical_species_count :=
          (results.filter (fun r => decide (r.stock_health_percent < 40))).length }

/- ──────────────────────────────────────────────────────────────────────────
   JSNum: JavaScript double arithmetic with NaN and ±Infinity, restricted to
   the operations the /api/fisheries handler performs.  Finite values are
   exact rationals; this captures exactly the special-value propagation that
   the plain ℚ model above cannot (ℚ division by zero yields 0).
   ────────────────────────────────────────────────────────────────────────── -/

/-- A JavaScript number: a finite value, +Infinity, -Infinity, or NaN. -/
inductive JSNum where
  | num : ℚ → JSNum
  | posInf : JSNum
  | negInf : JSNum
  | nan : JSNum
deriving DecidableEq, Repr

/-- JavaScript `+` on numbers. -/
def JSNum.add : JSNum → JSNum → JSNum
  | nan, _ => nan
  | _, nan => nan
  | num a, num b => num (a + b)
  | num _, posInf => posInf
  | num _, negInf => negInf
  | posInf, num _ => posInf
  | negInf, num _ => negInf
  | posInf, posInf => posInf
  | negInf, negInf => negInf
  | posInf, negInf => nan
  | negInf, posInf => nan

/-- JavaScript unary `-` on numbers. -/
def JSNum.neg : JSNum → JSNum
  | nan => nan
  | num a => num (-a)
  | posInf => negInf
  | negInf => posInf

/-- JavaScript binary `-` on numbers. -/
def JSNum.sub (a b : JSNum) : JSNum := a.add b.neg

/-- JavaScript `*` on numbers. -/
def JSNum.mul : JSNum → JSNum → JSNum
  | nan, _ => nan
  | _, nan => nan
  | num a, num b => num (a * b)
  | num a, posInf => if a = 0 then nan else if 0 < a then posInf else negInf
  | num a, negInf => if a = 0 then nan else if 0 < a then negInf else posInf
  | posInf, num b => if b = 0 then nan else if 0 < b then posInf else negInf
  | negInf, num b => if b = 0 then nan else if 0 < b then negInf else posInf
  | posInf, posInf => posInf
  | posInf, negInf => negInf
  | negInf, posInf => negInf
  | negInf, negInf => posInf

/-- JavaScript `/` on numbers.  Finite a with `a / 0` gives NaN when `a = 0`
and a signed infinity otherwise (the CSV-parsed operands are +0, not -0). -/
def JSNum.div : JSNum → JSNum → JSNum
  | nan, _ => nan
  | _, nan => nan
  | num a, num b =>
      if b = 0 then (if a = 0 then nan else if 0 < a then posInf else negInf)
      else num (a / b)
  | num _, posInf => num 0
  | num _, negInf => num 0
  | posInf, num b => if 0 ≤ b then posInf else negInf
  | negInf, num b => if 0 ≤ b then negInf else posInf
  | posInf, posInf => nan
  | posInf, negInf => nan
  | negInf, posInf => nan
  | negInf, negInf => nan

/-- JavaScript `Math.min` on two numbers: NaN-propagating. -/
def JSNum.jsMin : JSNum → JSNum → JSNum
  | nan, _ => nan
  | _, nan => nan
  | negInf, _ => negInf
  | num _, negInf => negInf
  | posInf, negInf => negInf
  | num a, num b => num (min a b)
  | num a, posInf => num a
  | posInf, num b => num b
  | posInf, posInf => posInf

/-- JavaScript `Math.max` on two numbers: NaN-propagating. -/
def JSNum.jsMax : JSNum → JSNum → JSNum
  | nan, _ => nan
  | _, nan => nan
  | posInf, _ => posInf
  | num _, posInf => posInf
  | negInf, posInf => posInf
  | num a, num b => num (max a b)
  | num a, negInf => num a
  | negInf, num b => num b
  | negInf, negInf => negInf

/-- JavaScript `Math.round`: round half toward +∞ on finite values, identity
on infinities, NaN on NaN. -/
def JSNum.jsRound : JSNum → JSNum
  | num q => num ((⌊q + 1/2⌋ : ℤ) : ℚ)
  | posInf => posInf
  | negInf => negInf
  | nan => nan

/-- One summand of the handler's `avgMSY` reduce:
`(s.current_catch_tonnes / s.msy_tonnes) * 100` in JS arithmetic. -/
def msyTermJs (s : StockRecord) : JSNum :=
  (JSNum.div (JSNum.num s.current_catch_tonnes) (JSNum.num s.msy_tonnes)).mul
    (JSNum.num 100)

/-- The handler's `avgMSY` in JS arithmetic: `reduce((sum, s) => sum + ..., 0)`
followed by division by `results.length`. -/
def avgMSYjs (results : List StockRecord) : JSNum :=
  (results.foldl (fun acc s => acc.add (msyTermJs s)) (JSNum.num 0)).div
    (JSNum.num (results.length : ℚ))

/-- The handler's `avgStockHealth` in JS arithmetic. -/
def avgStockHealthJs (results : List StockRecord) : JSNum :=
  (results.foldl (fun acc s => acc.add (JSNum.num s.stock_health_percent))
      (JSNum.num 0)).div (JSNum.num (results.length : ℚ))

/-- `msyPressureScore = Math.min(avgMSY, 120)` in JS arithmetic. -/
def msyPressureScoreJs (results : List StockRecord) : JSNum :=
  (avgMSYjs results).jsMin (JSNum.num 120)

/-- The handler's raw `sustainabilityIndex` in JS arithmetic
(`decliningPercent` and `climateScore` involve no division hazard and are
finite, so they enter as their rational values). -/
def sustainabilityIndexJs (results : List StockRecord) (sst : ℚ) : JSNum :=
  (((avgStockHealthJs results).mul (JSNum.num 0.5)).add
      (((JSNum.num 100).sub (msyPressureScoreJs results)).mul
        (JSNum.num 0.25))).add
    ((JSNum.num ((100 - decliningPercent results) * 0.15)).add
      (JSNum.num ((100 - climateScore sst) * 0.10)))

/-- `finalIndex = Math.max(0, Math.min(100, Math.round(...)))` in JS
arithmetic. -/
def finalIndexJs (results : List StockRecord) (sst : ℚ) : JSNum :=
  (JSNum.num 0).jsMax ((JSNum.num 100).jsMin
    (sustainabilityIndexJs results sst).jsRound)

/-- The handler's raw `collapseRisk` in JS arithmetic. -/
def collapseRiskJs (results : List StockRecord) (sst : ℚ) : JSNum :=
  ((((msyPressureScoreJs results).mul (JSNum.num 0.35)).add
      (JSNum.num (decliningPercent results * 0.25))).add
    (((JSNum.num 100).sub (avgStockHealthJs results)).mul
        (JSNum.num 0.25))).add
      (JSNum.num (climateScore sst * 0.15))

/-- `finalCollapseRisk` in JS arithmetic. -/
def finalCollapseRiskJs (results : List StockRecord) (sst : ℚ) : JSNum :=
  (JSNum.num 0).jsMax ((JSNum.num 100).jsMin
    (collapseRiskJs results sst).jsRound)

/- ──────────────────────────────────────────────────────────────────────────
   StatsEngine (src/utils/anomaly.js) — modelled from the spec, §4.1
   ────────────────────────────────────────────────────────────────────────── -/

/-- An observation: a timestamp and a mapping from parameter keys to a value
that may be missing (spec §3: `parameter_values: mapping(parameter_key →
float | missing)`). -/
structure Observation where
  timestamp : ℕ
  values : String → Option ℚ

/-- The valid (non-missing) values of one parameter across a series. -/
def validValues (series : List Observation) (key : String) : List ℚ :=
  series.filterMap (fun o => o.values key)

/-- Minimum of a list of rationals, 0 on the empty list. -/
def listMinQ : List ℚ → ℚ
  | [] => 0
  | x :: xs => xs.foldl min x

/-- Maximum of a list of rationals, 0 on the empty list. -/
def listMaxQ : List ℚ → ℚ
  | [] => 0
  | x :: xs => xs.foldl max x

/-- The per-parameter statistics record (spec §3 `ParameterStats`).  The
spec's `stdDev` is carried as its square `variance` so that the model stays
inside ℚ; since `stdDev = sqrt variance ≥ 0`, every claim phrased on
`stdDev` thresholds is equivalent to its squared form used below. -/
structure ParameterStats where
  mean : ℚ
  variance : ℚ
  minVal : ℚ
  maxVal : ℚ
  anomalyCount : ℕ
  moderateCount : ℕ
  extremeCount : ℕ
deriving DecidableEq, Repr

/-- Modelled from the spec: `computeStats(series, parameterKey)` of
src/utils/anomaly.js, which is not present in the source tree (only its
caller, the HistoricalChart component, is).  Spec §4.1: missing/non-numeric
values are excluded from all statistics; with zero valid values every
statistic is zero; `stdDev` uses the population formula; a value is moderate
when `2 ≤ |z| < 3` and extreme when `|z| ≥ 3` with `z = (x - mean)/stdDev`
(`z = 0` when `stdDev = 0`); `anomalyCount = moderateCount + extremeCount`.
The `|z|` bands appear here squared ( `4·variance ≤ (x-mean)² < 9·variance` )
which is equivalent since both sides are nonnegative. -/
def computeStats (series : List Observation) (key : String) : ParameterStats :=
  let vals := validValues series key
  if vals.length = 0 then
    { mean := 0, variance := 0, minVal := 0, maxVal := 0,
      anomalyCount := 0, moderateCount := 0, extremeCount := 0 }
  else
    let n : ℚ := vals.length
    let mean := vals.sum / n
    let variance := (vals.map (fun x => (x - mean) ^ 2)).sum / n
    let moderateCount := (vals.filter (fun x =>
      decide (0 < variance) && decide (4 * variance ≤ (x - mean) ^ 2) &&
      decide ((x - mean) ^ 2 < 9 * variance))).length
    let extremeCount := (vals.filter (fun x =>
      decide (0 < variance) && decide (9 * variance ≤ (x - mean) ^ 2))).length
    { mean := mean, variance := variance,
      minVal := listMinQ vals, maxVal := listMaxQ vals,
      anomalyCount := moderateCount + extremeCount,
      moderateCount := moderateCount, extremeCount := extremeCount }

/- ──────────────────────────────────────────────────────────────────────────
   Spec-side formulas (spec §4.5), for comparison against the handler.  The
   spec writes both outputs as round(clamp(·, 0, 100)); the handler rounds
   first and clamps afterwards.
   ────────────────────────────────────────────────────────────────────────── -/

/-- Spec §4.5: `sustainabilityIndex = round(clamp(avgStockHealth*0.5 +
(100-msyPressureScore)*0.25 + (100-decliningPercent)*0.15 +
(100-climateScore)*0.10, 0, 100))`. -/
def sustainabilityIndexSpec (results : List StockRecord) (sst : ℚ) : ℤ :=
  jround (clampQ (avgStockHealth results * 0.5 +
    (100 - msyPressureScore results) * 0.25 +
    (100 - decliningPercent results) * 0.15 + (100 - climateScore sst) * 0.10))

/-- Spec §4.5: `collapseRisk = round(clamp(msyPressureScore*0.35 +
decliningPercent*0.25 + (100-avgStockHealth)*0.25 + climateScore*0.15,
0, 100))`. -/
def collapseRiskSpec (results : List StockRecord) (sst : ℚ) : ℤ :=
  jround (clampQ (msyPressureScore results * 0.35 +
    decliningPercent results * 0.25 + (100 - avgStockHealth results) * 0.25 +
    climateScore sst * 0.15))

/- ──────────────────────────────────────────────────────────────────────────
   Helper lemmas
   ────────────────────────────────────────────────────────────────────────── -/

theorem jround_mono {x y : ℚ} (h : x ≤ y) : jround x ≤ jround y := by
  exact Int.floor_le_floor (by linarith)

theorem jround_intCast (z : ℤ) : jround (z : ℚ) = z := by
  unfold jround
  rw [Int.floor_int_add]
  norm_num

theorem jround_zero : jround 0 = 0 := by
  simpa using jround_intCast 0

theorem jround_hundred : jround 100 = 100 := by
  simpa using jround_intCast 100

/-- Rounding and clamping to the integer bounds 0 and 100 commute:
`round(clamp(x,0,100)) = clamp(round(x),0,100)`. -/
theorem jround_clampQ (x : ℚ) : jround (clampQ x) = clampI (jround x) := by
  unfold clampQ clampI
  rcases le_total x 0 with h0 | h0
  · have hx : jround x ≤ 0 := by simpa [jround_zero] using jround_mono h0
    have : max 0 (min 100 x) = 0 := by
      rw [min_eq_right (by linarith : x ≤ (100:ℚ)), max_eq_left h0]
    rw [this, jround_zero, min_eq_right (by omega : jround x ≤ 100),
      max_eq_left hx]
  · rcases le_total x 100 with h1 | h1
    · have hl : (0:ℤ) ≤ jround x := by simpa [jround_zero] using jround_mono h0
      have hr : jround x ≤ 100 := by simpa [jround_hundred] using jround_mono h1
      rw [min_eq_right h1, max_eq_right h0, min_eq_right hr, max_eq_right hl]
    · have hr : (100:ℤ) ≤ jround x := by
        simpa [jround_hundred] using jround_mono h1
      rw [min_eq_left h1, max_eq_right (by norm_num : (0:ℚ) ≤ 100),
        jround_hundred, min_eq_left hr,
        max_eq_right (by omega : (0:ℤ) ≤ 100)]

theorem clampI_mem (z : ℤ) : 0 ≤ clampI z ∧ clampI z ≤ 100 := by
  unfold clampI; omega

theorem clampI_mono {a b : ℤ} (h : a ≤ b) : clampI a ≤ clampI b := by
  unfold clampI; omega

/-- The imperative `alerts.push` accumulation of the species loop equals the
flat-map normal form: a left fold that appends per-element alert lists to an
accumulator produces the initial alerts followed by every species' alerts in
list order. -/
theorem foldl_speciesAlerts (l : List Species) (init : List Alert) :
    l.foldl (fun acc s => acc ++ speciesAlerts s) init =
      init ++ l.flatMap speciesAlerts := by
  induction l generalizing init with
  | nil => simp
  | cons s t ih => simp [ih, List.append_assoc]

theorem foldl_min_le_init (xs : List ℚ) (a : ℚ) : xs.foldl min a ≤ a := by
  induction xs generalizing a with
  | nil => exact le_refl a
  | cons x t ih => exact le_trans (ih (min a x)) (min_le_left a x)

theorem foldl_min_le_mem (xs : List ℚ) (a x : ℚ) (hx : x ∈ xs) :
    xs.foldl min a ≤ x := by
  induction xs generalizing a with
  | nil => cases hx
  | cons y t ih =>
    rcases List.mem_cons.mp hx with h | h
    · subst h
      exact le_trans (foldl_min_le_init t (min a x)) (min_le_right a x)
    · exact ih (min a y) h

theorem listMinQ_le (l : List ℚ) (x : ℚ) (hx : x ∈ l) : listMinQ l ≤ x := by
  cases l with
  | nil => cases hx
  | cons y t =>
    unfold listMinQ
    rcases List.mem_cons.mp hx with h | h
    · subst h; exact foldl_min_le_init t x
    · exact foldl_min_le_mem t y x h

theorem init_le_foldl_max (xs : List ℚ) (a : ℚ) : a ≤ xs.foldl max a := by
  induction xs generalizing a with
  | nil => exact le_refl a
  | cons x t ih => exact le_trans (le_max_left a x) (ih (max a x))

theorem mem_le_foldl_max (xs : List ℚ) (a x : ℚ) (hx : x ∈ xs) :
    x ≤ xs.foldl max a := by
  induction xs generalizing a with
  | nil => cases hx
  | cons y t ih =>
    rcases List.mem_cons.mp hx with h | h
    · subst h
      exact le_trans (le_max_right a x) (init_le_foldl_max t (max a x))
    · exact ih (max a y) h

theorem le_listMaxQ (l : List ℚ) (x : ℚ) (hx : x ∈ l) : x ≤ listMaxQ l := by
  cases l with
  | nil => cases hx
  | cons y t =>
    unfold listMaxQ
    rcases List.mem_cons.mp hx with h | h
    · subst h; exact init_le_foldl_max t x
    · exact mem_le_foldl_max t y x h

theorem JSNum.sub_num (a b : ℚ) :
    (JSNum.num a).sub (JSNum.num b) = JSNum.num (a - b) := by
  show JSNum.num (a + -b) = JSNum.num (a - b)
  rw [← sub_eq_add_neg]

theorem JSNum.div_num (a b : ℚ) (hb : b ≠ 0) :
    (JSNum.num a).div (JSNum.num b) = JSNum.num (a / b) := by
  show (if b = 0 then _ else JSNum.num (a / b)) = JSNum.num (a / b)
  rw [if_neg hb]

/-- The avgMSY reduce stays finite when every `msy_tonnes` is nonzero and
computes the rational sum of the per-record utilizations. -/
theorem foldl_msyTermJs (l : List StockRecord)
    (hl : ∀ s ∈ l, s.msy_tonnes ≠ 0) (a : ℚ) :
    l.foldl (fun acc s => acc.add (msyTermJs s)) (JSNum.num a) =
      JSNum.num (a +
        (l.map (fun s => s.current_catch_tonnes / s.msy_tonnes * 100)).sum) := by
  induction l generalizing a with
  | nil => simp
  | cons s t ih =>
    have hs : s.msy_tonnes ≠ 0 := hl s (List.mem_cons_self s t)
    have ht : ∀ x ∈ t, x.msy_tonnes ≠ 0 :=
      fun x hx => hl x (List.mem_cons_of_mem s hx)
    have hterm : msyTermJs s =
        JSNum.num (s.current_catch_tonnes / s.msy_tonnes * 100) := by
      unfold msyTermJs
      rw [JSNum.div_num _ _ hs]
      rfl
    rw [List.foldl_cons, hterm]
    show t.foldl _ (JSNum.num (a + s.current_catch_tonnes / s.msy_tonnes * 100))
        = _
    rw [ih ht]
    congr 1
    simp only [List.map_cons, List.sum_cons]
    ring

/-- The avgStockHealth reduce always stays finite. -/
theorem foldl_healthJs (l : List StockRecord) (a : ℚ) :
    l.foldl (fun acc s => acc.add (JSNum.num s.stock_health_percent))
        (JSNum.num a) =
      JSNum.num (a + (l.map (·.stock_health_percent)).sum) := by
  induction l generalizing a with
  | nil => simp
  | cons s t ih =>
    rw [List.foldl_cons]
    show t.foldl _ (JSNum.num (a + s.stock_health_percent)) = _
    rw [ih]
    congr 1
    simp only [List.map_cons, List.sum_cons]
    ring

/-- Model soundness: on every non-empty record list whose `msy_tonnes` are
all nonzero, the JavaScript-arithmetic pipeline produces exactly the finite
value of the rational model — the ℚ embedding used by the formula,
monotonicity and edge-case claims is faithful on the guarded domain. -/
theorem finalIndexJs_eq_num (l : List StockRecord) (sst : ℚ) (hne : l ≠ [])
    (hmsy : ∀ r ∈ l, r.msy_tonnes ≠ 0) :
    finalIndexJs l sst = JSNum.num ((finalIndex l sst : ℤ) : ℚ) := by
  have hlen : (l.length : ℚ) ≠ 0 := by
    have : l.length ≠ 0 := fun h => hne (List.length_eq_zero.mp h)
    exact_mod_cast this
  have hMSY : avgMSYjs l = JSNum.num (avgMSY l) := by
    unfold avgMSYjs avgMSY
    rw [foldl_msyTermJs l hmsy 0, JSNum.div_num _ _ hlen, zero_add]
  have hHealth : avgStockHealthJs l = JSNum.num (avgStockHealth l) := by
    unfold avgStockHealthJs avgStockHealth
    rw [foldl_healthJs l 0, JSNum.div_num _ _ hlen, zero_add]
  have hPres : msyPressureScoreJs l = JSNum.num (msyPressureScore l) := by
    unfold msyPressureScoreJs msyPressureScore
    rw [hMSY]
    rfl
  have hIdx : sustainabilityIndexJs l sst =
      JSNum.num (sustainabilityIndex l sst) := by
    unfold sustainabilityIndexJs sustainabilityIndex
    rw [hPres, hHealth, JSNum.sub_num]
    show JSNum.num (avgStockHealth l * 0.5 +
        (100 - msyPressureScore l) * 0.25 +
        ((100 - decliningPercent l) * 0.15 + (100 - climateScore sst) * 0.10))
      = _
    congr 1
    ring
  unfold finalIndexJs finalIndex clampI
  rw [hIdx]
  show JSNum.num (max 0 (min 100 ((jround (sustainabilityIndex l sst) : ℤ) : ℚ)))
      = _
  congr 1
  push_cast
  rfl

/- ──────────────────────────────────────────────────────────────────────────
   Claims
   ────────────────────────────────────────────────────────────────────────── -/

/-- C3: the climate-stress score of the /api/fisheries risk scorer is exactly
the step function of sea-surface temperature with bands (-∞,26] ↦ 20,
(26,28] ↦ 40, (28,30] ↦ 60, (30,∞) ↦ 90 — in particular sst = 28 gives 40
and sst = 30 gives 60 — and the scorer's response reports exactly this value
as its climate-stress score for every non-empty record list. -/
theorem claim_C3_climate_step (sst : ℚ) :
    (sst ≤ 26 → climateScore sst = 20) ∧
    (26 < sst ∧ sst ≤ 28 → climateScore sst = 40) ∧
    (28 < sst ∧ sst ≤ 30 → climateScore sst = 60) ∧
    (30 < sst → climateScore sst = 90) ∧
    (∀ results : List StockRecord, results.length ≠ 0 →
      ∃ res, scoreRisk results sst = ScoreResponse.scored res ∧
        res.climate_stress_score = climateScore sst) := by
  refine ⟨fun h => ?_, fun h => ?_, fun h => ?_, fun h => ?_, fun results h => ?_⟩
  · unfold climateScore
    rw [if_neg (by linarith), if_neg (by linarith), if_neg (by linarith)]
  · obtain ⟨h1, h2⟩ := h
    unfold climateScore
    rw [if_neg (by linarith), if_neg (by linarith), if_pos (by linarith)]
  · obtain ⟨h1, h2⟩ := h
    unfold climateScore
    rw [if_neg (by linarith), if_pos (by linarith)]
  · unfold climateScore
    rw [if_pos (by linarith)]
  · unfold scoreRisk
    rw [if_neg h]
    exact ⟨_, rfl, rfl⟩

theorem claim_C3_climate_step_witness :
    climateScore 28 = 40 ∧ climateScore 30 = 60 :=
  ⟨(claim_C3_climate_step 28).2.1 ⟨by norm_num, le_refl 28⟩,
   (claim_C3_climate_step 30).2.2.1 ⟨by norm_num, le_refl 30⟩⟩

/-- C6: when zero stock records match the region filter, the /api/fisheries
scorer responds with exactly the minimal `{count: 0}` body — the `noData`
constructor, which carries no scoring field at all (index, collapse risk,
climate stress, projection and stats are absent, not zero-filled) — and the
computation is total, so no error is raised. -/
theorem claim_C6_zero_match_minimal (rows : List StockRecord)
    (q : Option String) (sst : ℚ)
    (h : (regionFilter q rows).length = 0) :
    scoreRisk (regionFilter q rows) sst = ScoreResponse.noData := by
  unfold scoreRisk
  rw [if_pos h]

theorem claim_C6_zero_match_minimal_witness :
    scoreRisk (regionFilter (some "pacific") []) 27 = ScoreResponse.noData :=
  claim_C6_zero_match_minimal [] (some "pacific") 27 rfl

/-- C7: `evaluateSuitability` tests the Protected status first, so a species
that is both legally Protected and outside its temperature range under the
given conditions is reported unsuitable with the protection reason, never
the temperature reason. -/
theorem claim_C7_protected_over_temperature (s : Species) (c : CurrentData)
    (m : ℕ) (hp : s.legal_status = "Protected")
    (_ht : c.sea_surface_temp < s.temp_range_low ∨
      s.temp_range_high < c.sea_surface_temp) :
    evaluateSuitability s c m =
      { suitable := false,
        reason := "Species is legally protected. Conservation active." } := by
  unfold evaluateSuitability
  rw [if_pos hp]

theorem claim_C7_protected_over_temperature_witness :
    evaluateSuitability ⟨1, "Grouper", 20, 28, 3, [1], "Protected", 80, "Stable"⟩
      ⟨99, 1⟩ 1 =
      { suitable := false,
        reason := "Species is legally protected. Conservation active." } :=
  claim_C7_protected_over_temperature _ _ 1 rfl (Or.inr (by norm_num))

/-- C2 counterexample: `evaluateSuitability` is not a function of the species
record and conditions snapshot alone — the code reads the wall-clock month
(`new Date().getMonth() + 1`), and two calls that differ only in that
external value disagree: with season_months = [1], month 1 yields suitable
and month 2 yields the out-of-season rejection. -/
theorem claim_C2_counterexample :
    ¬ (∀ (s : Species) (c : CurrentData) (m₁ m₂ : ℕ),
        evaluateSuitability s c m₁ = evaluateSuitability s c m₂) := by
  intro hall
  have h := hall ⟨1, "Tuna", 20, 28, 3, [1], "Open", 80, "Stable"⟩ ⟨25, 1⟩ 1 2
  have h1 : (evaluateSuitability
      ⟨1, "Tuna", 20, 28, 3, [1], "Open", 80, "Stable"⟩ ⟨25, 1⟩ 1).suitable
      = true := rfl
  have h2 : (evaluateSuitability
      ⟨1, "Tuna", 20, 28, 3, [1], "Open", 80, "Stable"⟩ ⟨25, 1⟩ 2).suitable
      = false := rfl
  rw [h, h2] at h1
  exact Bool.noConfusion h1

/-- C2 (amended): with the wall-clock month made an explicit third argument,
`evaluateSuitability` is a pure deterministic function of the species record,
the conditions snapshot and that month: two evaluations with identical
species and conditions agree whenever the two months agree on membership in
the species' season — in particular identical arguments give identical
results.  The current month really is an input: its only influence is the
season test. -/
theorem claim_C2_pure_given_month (s : Species) (c : CurrentData)
    (m₁ m₂ : ℕ) (h : m₁ ∈ s.season_months ↔ m₂ ∈ s.season_months) :
    evaluateSuitability s c m₁ = evaluateSuitability s c m₂ := by
  by_cases hp : s.legal_status = "Protected"
  · simp [evaluateSuitability, hp]
  · by_cases h1 : m₁ ∈ s.season_months
    · have h2 : m₂ ∈ s.season_months := h.mp h1
      simp [evaluateSuitability, hp, h1, h2]
    · have h2 : ¬ m₂ ∈ s.season_months := fun x => h1 (h.mpr x)
      simp [evaluateSuitability, hp, h1, h2]

theorem claim_C2_pure_given_month_witness :
    evaluateSuitability ⟨1, "Tuna", 20, 28, 3, [1, 2], "Open", 80, "Stable"⟩
        ⟨25, 1⟩ 1 =
      evaluateSuitability ⟨1, "Tuna", 20, 28, 3, [1, 2], "Open", 80, "Stable"⟩
        ⟨25, 1⟩ 2 :=
  claim_C2_pure_given_month _ _ 1 2 (by decide)

/-- C9: `generateFisheriesAlerts` emits, in exactly this order with no rule
suppressing another: the rough-sea danger alert when wave_height > 3, then
the low-sustainability warning when the score < 60, then for each species in
list order a stock-pressure warning when its stock_health < 50 followed
independently by a conservation info alert when it is Protected (both can
fire for one species); nothing is de-duplicated or dropped. -/
theorem claim_C9_alert_order (l : List Species) (score : ℤ) (c : CurrentData) :
    generateFisheriesAlerts l score c =
      (if c.wave_height > 3 then
        [{ type := "danger",
           message := "Rough Sea Warning: High waves pose safety risk for small vessels." }]
       else []) ++
      (if score < 60 then
        [{ type := "warning",
           message := "Low Sustainability Index: Recommendation to reduce fishing effort." }]
       else []) ++
      l.flatMap (fun s =>
        (if s.stock_health < 50 then
          [{ type := "warning",
             message := "Biological Alert: " ++ s.name ++
               " stocks are under pressure (" ++ toString s.stock_health ++
               "%)." }]
         else []) ++
        (if s.legal_status = "Protected" then
          [{ type := "info",
             message := "Conservation: " ++ s.name ++
               " is strictly protected this area." }]
         else [])) := by
  unfold generateFisheriesAlerts
  rw [foldl_speciesAlerts]
  rfl

/-- C1: the /api/fisheries handler does NOT guard `msy_tonnes == 0`.  In the
JavaScript arithmetic (model `JSNum`), a record with `msy_tonnes = 0` and
`current_catch_tonnes = 0` makes the avgMSY reduce compute `0/0 = NaN`,
which `Math.min(·, 120)` propagates, so the aggregated sustainability index
and the collapse-risk score are both NaN; and a record with
`msy_tonnes = 0, current_catch_tonnes = 50` contributes Infinity to the
MSY-utilization average instead of being excluded or contributing 0.  This
refutes the claimed guard (the claim — and spec §4.5/§7 — is the evident
intent; the code lacks the guard). -/
theorem claim_C1_divide_by_zero_unguarded :
    finalIndexJs [⟨7, "Indian Ocean", "Sardine", 80, "Stable", 0, 0, false⟩]
        27 = JSNum.nan ∧
    finalCollapseRiskJs
        [⟨7, "Indian Ocean", "Sardine", 80, "Stable", 0, 0, false⟩] 27 =
        JSNum.nan ∧
    avgMSYjs [⟨8, "Indian Ocean", "Mackerel", 80, "Stable", 0, 50, false⟩] =
        JSNum.posInf :=
  ⟨rfl, rfl, rfl⟩

/-- The handler's sustainability index equals the spec's
`round(clamp(formula, 0, 100))`: the code computes `clamp(round(formula))`,
and `jround_clampQ` shows the two orders agree at the integer bounds. -/
theorem finalIndex_eq_spec (results : List StockRecord) (sst : ℚ) :
    finalIndex results sst = sustainabilityIndexSpec results sst := by
  unfold finalIndex sustainabilityIndexSpec sustainabilityIndex
  rw [jround_clampQ]

/-- Same for the collapse-risk score. -/
theorem finalCollapseRisk_eq_spec (results : List StockRecord) (sst : ℚ) :
    finalCollapseRisk results sst = collapseRiskSpec results sst := by
  unfold finalCollapseRisk collapseRiskSpec collapseRisk
  rw [jround_clampQ]

/-- C4: for every non-empty stock-record list with positive MSY values, the
handler's response carries sustainability_index = round(clamp(avgStockHealth
*0.5 + (100-msyPressureScore)*0.25 + (100-decliningPercent)*0.15 +
(100-climateScore)*0.10, 0, 100)) and collapse_risk = round(clamp(
msyPressureScore*0.35 + decliningPercent*0.25 + (100-avgStockHealth)*0.25 +
climateScore*0.15, 0, 100)), where msyPressureScore = min(avgMSY, 120) and
decliningPercent is the percentage of Declining/Critical records; both
are integers in [0, 100].  (The code rounds before clamping; the two orders
coincide, see `finalIndex_eq_spec`.) -/
theorem claim_C4_weighted_formulas (results : List StockRecord) (sst : ℚ)
    (hne : results ≠ [])
    (_hmsy : ∀ r ∈ results, 0 < r.msy_tonnes) :
    ∃ res, scoreRisk results sst = ScoreResponse.scored res ∧
      res.sustainability_index = sustainabilityIndexSpec results sst ∧
      res.collapse_risk_score = collapseRiskSpec results sst ∧
      0 ≤ res.sustainability_index ∧ res.sustainability_index ≤ 100 ∧
      0 ≤ res.collapse_risk_score ∧ res.collapse_risk_score ≤ 100 := by
  have hlen : results.length ≠ 0 := fun h => hne (List.length_eq_zero.mp h)
  unfold scoreRisk
  rw [if_neg hlen]
  refine ⟨_, rfl, ?_, ?_, ?_, ?_, ?_, ?_⟩
  · exact finalIndex_eq_spec results sst
  · exact finalCollapseRisk_eq_spec results sst
  · exact (clampI_mem _).1
  · exact (clampI_mem _).2
  · exact (clampI_mem _).1
  · exact (clampI_mem _).2

theorem claim_C4_weighted_formulas_witness :
    ∃ res, scoreRisk [⟨1, "Indian Ocean", "Tuna", 80, "Stable", 100, 100,
        false⟩] 27 = ScoreResponse.scored res ∧
      res.sustainability_index =
        sustainabilityIndexSpec
          [⟨1, "Indian Ocean", "Tuna", 80, "Stable", 100, 100, false⟩] 27 ∧
      res.collapse_risk_score =
        collapseRiskSpec
          [⟨1, "Indian Ocean", "Tuna", 80, "Stable", 100, 100, false⟩] 27 ∧
      0 ≤ res.sustainability_index ∧ res.sustainability_index ≤ 100 ∧
      0 ≤ res.collapse_risk_score ∧ res.collapse_risk_score ≤ 100 :=
  claim_C4_weighted_formulas _ 27 (by simp)
    (by intro r hr; rw [List.mem_singleton] at hr; subst hr; norm_num)

/-- C8: `calculateSustainabilityScore` returns 0 on the empty species list;
on every non-empty list whose stock_health values lie in [0, 100] it returns
round(avgStockHealth*0.4 + tempScore*0.4 + waveScore*0.2) — tempScore the
percentage of species whose temp_range contains sea_surface_temp, waveScore
the percentage whose max_wave_height is at least the wave height — an
integer in [0, 100]. -/
theorem claim_C8_score_formula_and_bounds :
    (∀ c : CurrentData, calculateSustainabilityScore [] c = 0) ∧
    ∀ (l : List Species) (c : CurrentData), l ≠ [] →
      (∀ s ∈ l, 0 ≤ s.stock_health ∧ s.stock_health ≤ 100) →
      calculateSustainabilityScore l c =
        jround ((l.map (·.stock_health)).sum / (l.length : ℚ) * 0.4 +
          ((l.filter (fun s =>
            decide (c.sea_surface_temp ≥ s.temp_range_low) &&
            decide (c.sea_surface_temp ≤ s.temp_range_high))).length : ℚ) /
              (l.length : ℚ) * 100 * 0.4 +
          ((l.filter (fun s =>
            decide (c.wave_height ≤ s.max_wave_height))).length : ℚ) /
              (l.length : ℚ) * 100 * 0.2) ∧
      0 ≤ calculateSustainabilityScore l c ∧
      calculateSustainabilityScore l c ≤ 100 := by
  refine ⟨fun c => rfl, fun l c hne hb => ?_⟩
  have hlen : l.length ≠ 0 := fun h => hne (List.length_eq_zero.mp h)
  have hn : (0 : ℚ) < (l.length : ℚ) := by
    exact_mod_cast Nat.pos_of_ne_zero hlen
  have heq : calculateSustainabilityScore l c =
      jround ((l.map (·.stock_health)).sum / (l.length : ℚ) * 0.4 +
        ((l.filter (fun s =>
          decide (c.sea_surface_temp ≥ s.temp_range_low) &&
          decide (c.sea_surface_temp ≤ s.temp_range_high))).length : ℚ) /
            (l.length : ℚ) * 100 * 0.4 +
        ((l.filter (fun s =>
          decide (c.wave_height ≤ s.max_wave_height))).length : ℚ) /
            (l.length : ℚ) * 100 * 0.2) := by
    unfold calculateSustainabilityScore
    rw [if_neg hlen]
  refine ⟨heq, ?_, ?_⟩ <;> rw [heq]
  all_goals {
    have hA0 : (0 : ℚ) ≤ (l.map (·.stock_health)).sum / (l.length : ℚ) := by
      apply div_nonneg _ (le_of_lt hn)
      apply List.sum_nonneg
      intro x hx
      obtain ⟨s, hs, rfl⟩ := List.mem_map.mp hx
      exact (hb s hs).1
    have hA1 : (l.map (·.stock_health)).sum / (l.length : ℚ) ≤ 100 := by
      rw [div_le_iff₀ hn]
      have hsum : (l.map (·.stock_health)).sum ≤
          (l.map (·.stock_health)).length • (100 : ℚ) := by
        apply List.sum_le_card_nsmul
        intro x hx
        obtain ⟨s, hs, rfl⟩ := List.mem_map.mp hx
        exact (hb s hs).2
      rw [List.length_map, nsmul_eq_mul] at hsum
      linarith
    have hT : ∀ p : Species → Bool,
        (0 : ℚ) ≤ ((l.filter p).length : ℚ) / (l.length : ℚ) * 100 ∧
        ((l.filter p).length : ℚ) / (l.length : ℚ) * 100 ≤ 100 := by
      intro p
      have hc : ((l.filter p).length : ℚ) ≤ (l.length : ℚ) := by
        exact_mod_cast List.length_filter_le p l
      have hd0 : (0 : ℚ) ≤ ((l.filter p).length : ℚ) / (l.length : ℚ) := by
        positivity
      have hd1 : ((l.filter p).length : ℚ) / (l.length : ℚ) ≤ 1 :=
        (div_le_one hn).mpr hc
      constructor <;> nlinarith
    obtain ⟨hT0, hT1⟩ := hT (fun s =>
      decide (c.sea_surface_temp ≥ s.temp_range_low) &&
      decide (c.sea_surface_temp ≤ s.temp_range_high))
    obtain ⟨hW0, hW1⟩ := hT (fun s => decide (c.wave_height ≤ s.max_wave_height))
    first
    | (calc (0 : ℤ) = jround 0 := jround_zero.symm
        _ ≤ _ := jround_mono (by linarith))
    | (calc jround _ ≤ jround 100 := jround_mono (by linarith)
        _ = 100 := jround_hundred)
  }

theorem claim_C8_score_formula_and_bounds_witness :
    calculateSustainabilityScore [] ⟨25, 1⟩ = 0 ∧
    (0 ≤ calculateSustainabilityScore
        [⟨1, "Tuna", 20, 28, 3, [1], "Open", 80, "Stable"⟩] ⟨25, 1⟩ ∧
      calculateSustainabilityScore
        [⟨1, "Tuna", 20, 28, 3, [1], "Open", 80, "Stable"⟩] ⟨25, 1⟩ ≤ 100) :=
  by
  have h := claim_C8_score_formula_and_bounds.2
    [⟨1, "Tuna", 20, 28, 3, [1], "Open", 80, "Stable"⟩] ⟨25, 1⟩ (by simp)
    (by intro s hs; rw [List.mem_singleton] at hs; subst hs;
        constructor <;> norm_num)
  exact ⟨claim_C8_score_formula_and_bounds.1 ⟨25, 1⟩, h.2.1, h.2.2⟩

/-- C5: the risk scorer is monotonic in stock health: raising one record's
stock_health_percent (all other fields and records unchanged — the record in
question split out as `pre ++ r :: post`) never decreases the resulting
sustainability index. -/
theorem claim_C5_health_monotone (pre post : List StockRecord)
    (r : StockRecord) (h2 : ℚ) (sst : ℚ)
    (hr : r.stock_health_percent ≤ h2) :
    finalIndex (pre ++ r :: post) sst ≤
      finalIndex (pre ++ { r with stock_health_percent := h2 } :: post) sst := by
  have hlen : (pre ++ { r with stock_health_percent := h2 } :: post).length =
      (pre ++ r :: post).length := by simp
  have hn : (0 : ℚ) < ((pre ++ r :: post).length : ℚ) := by
    have : 0 < (pre ++ r :: post).length := by simp
    exact_mod_cast this
  have hmsy : avgMSY (pre ++ { r with stock_health_percent := h2 } :: post) =
      avgMSY (pre ++ r :: post) := by
    unfold avgMSY
    simp
  have hdec : decliningCount
      (pre ++ { r with stock_health_percent := h2 } :: post) =
      decliningCount (pre ++ r :: post) := by
    unfold decliningCount
    simp only [List.filter_append, List.filter_cons, List.length_append]
    split <;> simp
  have havg : avgStockHealth (pre ++ r :: post) ≤
      avgStockHealth (pre ++ { r with stock_health_percent := h2 } :: post) := by
    unfold avgStockHealth
    rw [hlen, div_le_div_iff_of_pos_right hn]
    simp only [List.map_append, List.map_cons, List.sum_append, List.sum_cons]
    linarith
  have hidx : sustainabilityIndex (pre ++ r :: post) sst ≤
      sustainabilityIndex (pre ++ { r with stock_health_percent := h2 } :: post)
        sst := by
    unfold sustainabilityIndex msyPressureScore decliningPercent
    rw [hmsy, hdec, hlen]
    linarith
  exact clampI_mono (jround_mono hidx)

theorem claim_C5_health_monotone_witness :
    finalIndex [⟨1, "Indian Ocean", "Tuna", 80, "Stable", 100, 100, false⟩]
        27 ≤
      finalIndex [⟨1, "Indian Ocean", "Tuna", 90, "Stable", 100, 100, false⟩]
        27 :=
  claim_C5_health_monotone [] []
    ⟨1, "Indian Ocean", "Tuna", 80, "Stable", 100, 100, false⟩ 90 27
    (by norm_num)

/-- C10: `computeStats` (modelled from the spec; the implementation file is
not in the source tree) excludes missing values from all statistics — it
works on `validValues` only — and satisfies min ≤ mean ≤ max whenever the
valid-value count is positive, returning the all-zero record (not NaN, not
an error) whenever the valid-value count is zero. -/
theorem claim_C10_stats_bounds (series : List Observation) (key : String) :
    ((validValues series key).length = 0 →
      computeStats series key =
        { mean := 0, variance := 0, minVal := 0, maxVal := 0,
          anomalyCount := 0, moderateCount := 0, extremeCount := 0 }) ∧
    (0 < (validValues series key).length →
      (computeStats series key).minVal ≤ (computeStats series key).mean ∧
      (computeStats series key).mean ≤ (computeStats series key).maxVal) := by
  constructor
  · intro h
    unfold computeStats
    rw [if_pos h]
  · intro h
    have h0 : (validValues series key).length ≠ 0 := Nat.pos_iff_ne_zero.mp h
    have hn : (0 : ℚ) < ((validValues series key).length : ℚ) := by
      exact_mod_cast h
    unfold computeStats
    rw [if_neg h0]
    constructor
    · show listMinQ (validValues series key) ≤
        (validValues series key).sum / ((validValues series key).length : ℚ)
      rw [le_div_iff₀ hn]
      have hs := List.card_nsmul_le_sum (validValues series key)
        (listMinQ (validValues series key))
        (fun x hx => listMinQ_le (validValues series key) x hx)
      rw [nsmul_eq_mul] at hs
      linarith
    · show (validValues series key).sum / ((validValues series key).length : ℚ)
        ≤ listMaxQ (validValues series key)
      rw [div_le_iff₀ hn]
      have hs := List.sum_le_card_nsmul (validValues series key)
        (listMaxQ (validValues series key))
        (fun x hx => le_listMaxQ (validValues series key) x hx)
      rw [nsmul_eq_mul] at hs
      linarith

theorem claim_C10_stats_bounds_witness :
    computeStats [] "WTMP" =
      { mean := 0, variance := 0, minVal := 0, maxVal := 0,
        anomalyCount := 0, moderateCount := 0, extremeCount := 0 } ∧
    ((computeStats [⟨0, fun k => if k = "WTMP" then some 10 else none⟩]
        "WTMP").minVal ≤
      (computeStats [⟨0, fun k => if k = "WTMP" then some 10 else none⟩]
        "WTMP").mean ∧
     (computeStats [⟨0, fun k => if k = "WTMP" then some 10 else none⟩]
        "WTMP").mean ≤
      (computeStats [⟨0, fun k => if k = "WTMP" then some 10 else none⟩]
        "WTMP").maxVal) :=
  ⟨(claim_C10_stats_bounds [] "WTMP").1 rfl,
   (claim_C10_stats_bounds
     [⟨0, fun k => if k = "WTMP" then some 10 else none⟩] "WTMP").2
     (by decide)⟩



